import Mathlib

/-!
Verification of the request/pagination/streaming engine of the
sparta/twitterapi client against its specification.

The Python source is shallowly embedded: each endpoint loop becomes a
structurally recursive Lean function over a list of synthetic HTTP
responses (the responses the network would deliver, in order), and each
run is summarised by a trace recording the items yielded to the consumer,
the requests issued (with their pagination parameters), how often the
rate-limit tracker was updated, and how the generator ended.
-/

set_option autoImplicit false

/-! ### RateLimiter (src/sparta/twitterapi/rate_limiter.py) -/

/-- State of RateLimiter: the two attributes set in init to None.
Integers are modelled as Lean Int, absent values as none. -/
structure RateLimiter where
  remaining : Option Int
  reset_time : Option Int
deriving DecidableEq, Repr

/-- The state produced by RateLimiter.init : both fields None. -/
def RateLimiter.init : RateLimiter := ⟨none, none⟩

/-- Value of a decimal digit character. -/
def digitVal (c : Char) : Nat := c.toNat - 48

/-- Parse a nonempty all-digit character list to a Nat, none otherwise. -/
def digitsVal (cs : List Char) : Option Nat :=
  if cs.isEmpty then none
  else cs.foldl
    (fun acc c => acc.bind fun n => if c.isDigit then some (10 * n + digitVal c) else none)
    (some 0)

/-- Python int(s) on a string: optional sign followed by digits; none models
a raised ValueError. Surrounding whitespace and underscore separators,
which Python also accepts, are not modelled; no claim depends on them. -/
def pyInt (s : String) : Option Int :=
  match s.toList with
  | '-' :: rest => (digitsVal rest).map fun n => -(n : Int)
  | '+' :: rest => (digitsVal rest).map fun n => (n : Int)
  | cs => (digitsVal cs).map fun n => (n : Int)

/-- RateLimiter.update_limits: headers is a key-value map (modelled as an
association list). remaining is assigned int(headers.get(key, 1)) and then
reset_time is assigned int(headers.get(key, 0)); with a key absent the
Python default is already the int 1 (resp. 0), so no parse happens there.
Returns the state after the call together with a flag that is true when
int() raised ValueError on a malformed present value; in Python the two
assignments run in order, so a failing reset parse still leaves remaining
updated. -/
def update_limits (s : RateLimiter) (headers : List (String × String)) : RateLimiter × Bool :=
  match (match headers.lookup "x-rate-limit-remaining" with
         | none => some (1 : Int)
         | some v => pyInt v) with
  | none => (s, true)
  | some rem =>
    match (match headers.lookup "x-rate-limit-reset" with
           | none => some (0 : Int)
           | some v => pyInt v) with
    | none => ({ s with remaining := some rem }, true)
    | some rst => ({ remaining := some rem, reset_time := some rst }, false)

/-- RateLimiter.should_wait: returns self.remaining == 0. In Python,
None == 0 is False, so an unknown remaining never triggers a wait;
Option equality models this exactly. -/
def should_wait (s : RateLimiter) : Bool := s.remaining == some (0 : Int)

/-- RateLimiter.wait_for_limit_reset: returns the number of seconds the
coroutine sleeps, given the current clock value now. The body runs only
under the guard "if self.reset_time is not None"; with reset_time unset
the method returns at once without sleeping, modelled as 0. Otherwise it
sleeps max(reset_time - now, 1). The method never raises. -/
def wait_for_limit_reset (s : RateLimiter) (now : Int) : Int :=
  match s.reset_time with
  | none => 0
  | some r => max (r - now) 1

/-- Claim C1: should_wait is true iff the tracked remaining equals 0; for a
headers map lacking the remaining key, update_limits defaults remaining to
the non-zero sentinel 1 (and reset_time to 0 when the reset key is also
absent), so after update_limits on header-less responses, and on a fresh
tracker, should_wait is false. -/
theorem claim_C1 :
    (∀ s : RateLimiter, should_wait s = true ↔ s.remaining = some 0)
    ∧ (∀ (s : RateLimiter) (h : List (String × String)),
        h.lookup "x-rate-limit-remaining" = none →
        (update_limits s h).1.remaining = some 1 ∧ (1 : Int) ≠ 0 ∧
          (h.lookup "x-rate-limit-reset" = none →
            update_limits s h = (⟨some 1, some 0⟩, false)) ∧
          should_wait (update_limits s h).1 = false)
    ∧ should_wait RateLimiter.init = false := by
  refine ⟨fun s => ?_, fun s h hrem => ?_, by decide⟩
  · simp [should_wait]
  · cases hrst : h.lookup "x-rate-limit-reset" with
    | none =>
      refine ⟨?_, by decide, ?_, ?_⟩ <;>
        simp [update_limits, hrem, hrst, should_wait]
    | some v =>
      cases hv : pyInt v with
      | none =>
        refine ⟨?_, by decide, ?_, ?_⟩ <;>
          simp [update_limits, hrem, hrst, hv, should_wait]
      | some r =>
        refine ⟨?_, by decide, ?_, ?_⟩ <;>
          simp [update_limits, hrem, hrst, hv, should_wait]

/-- Witness for claim C1 at the empty headers map. -/
theorem claim_C1_witness :
    ([] : List (String × String)).lookup "x-rate-limit-remaining" = none ∧
    (update_limits RateLimiter.init []).1.remaining = some 1 ∧
    should_wait (update_limits RateLimiter.init []).1 = false :=
  ⟨rfl, (claim_C1.2.1 RateLimiter.init [] rfl).1,
    (claim_C1.2.1 RateLimiter.init [] rfl).2.2.2⟩

/-- Counterexample to claim C2 as stated: on a fresh RateLimiter, whose
reset_time is unset, wait_for_limit_reset returns at once (sleeps 0
seconds), not the claimed minimum of max(reset_time - now, 1) = 1 second. -/
theorem claim_C2_counterexample :
    wait_for_limit_reset RateLimiter.init 100 = 0 ∧
    ¬ (1 : Int) ≤ wait_for_limit_reset RateLimiter.init 100 := by
  constructor <;> decide

/-- Claim C2 (amended): whenever reset_time is set, wait_for_limit_reset
sleeps exactly max(reset_time - now, 1) seconds, hence at least 1 second
even when the reset time has already passed, and it never raises; when
reset_time is unset (fresh tracker) it returns immediately without
sleeping. -/
theorem claim_C2_amended (s : RateLimiter) (now : Int) :
    (∀ r : Int, s.reset_time = some r →
      wait_for_limit_reset s now = max (r - now) 1 ∧
        (1 : Int) ≤ wait_for_limit_reset s now)
    ∧ (s.reset_time = none → wait_for_limit_reset s now = 0) := by
  constructor
  · intro r hr
    rw [wait_for_limit_reset, hr]
    exact ⟨rfl, le_max_right _ _⟩
  · intro hr
    rw [wait_for_limit_reset, hr]

/-- Witness for claim C2 (amended): a reset time already 50 seconds in the
past still sleeps the 1-second floor. -/
theorem claim_C2_amended_witness :
    wait_for_limit_reset ⟨some 1, some 50⟩ 100 = max ((50 : Int) - 100) 1 ∧
    (1 : Int) ≤ wait_for_limit_reset ⟨some 1, some 50⟩ 100 :=
  (claim_C2_amended ⟨some 1, some 50⟩ 100).1 50 rfl

/-! ### Pagination loops

Each endpoint loop is embedded as a structurally recursive function on the
list of synthetic HTTP responses the network delivers, one per issued
request, in order. A response carries the HTTP status, the decoded items
of the page body (data, with the empty list covering both an absent and an
empty data field), and the optional next_token of the response metadata.
Sleeps are irrelevant to the claims and are not modelled; an exhausted
response list means the loop would issue a further request. -/

/-- How a generator run ended. -/
inductive RunOutcome where
  /-- the generator function returned or broke out of its loop normally -/
  | completed
  /-- the generator raised an exception -/
  | raisedError
  /-- the synthetic response list ran out while the loop wanted to issue
  another request -/
  | exhausted
deriving DecidableEq, Repr

/-- One synthetic HTTP response consumed by a pagination loop. -/
structure PageResponse where
  status : Nat
  data : List String
  next_token : Option String
deriving DecidableEq, Repr

/-- Trace of a get_full_search run: the tweets yielded, the next_token
query parameter of each issued request in order (none on the first
request), and how the run ended. -/
structure SearchTrace where
  items : List String
  requests : List (Option String)
  outcome : RunOutcome
deriving DecidableEq, Repr

/-- The while-True loop of get_full_search (full_search.py lines 119-150),
with tok the current next_token entry of params. Branches in source
order: status 400 raises; status 429 sleeps and retries the same request;
any other not-ok status (aiohttp response.ok is status < 400) sleeps and
retries; otherwise the page data is yielded, then the loop continues with
params next_token set from the response metadata, or returns when the
metadata has no next_token. -/
def fullSearchLoop (tok : Option String) : List PageResponse → SearchTrace
  | [] => ⟨[], [], .exhausted⟩
  | r :: rest =>
    if r.status = 400 then
      ⟨[], [tok], .raisedError⟩
    else if r.status = 429 then
      let t := fullSearchLoop tok rest
      ⟨t.items, tok :: t.requests, t.outcome⟩
    else if 400 ≤ r.status then
      let t := fullSearchLoop tok rest
      ⟨t.items, tok :: t.requests, t.outcome⟩
    else
      match r.next_token with
      | some nt =>
        let t := fullSearchLoop (some nt) rest
        ⟨r.data ++ t.items, tok :: t.requests, t.outcome⟩
      | none => ⟨r.data, [tok], .completed⟩

/-- A get_full_search run: the first request carries no next_token. -/
def fullSearchRun (resps : List PageResponse) : SearchTrace :=
  fullSearchLoop none resps

/-- Trace of a get_followers_by_id / get_following_by_id run: the users
yielded, the number of issued requests, the number of calls to
RateLimiter.update_limits, and how the run ended. -/
structure FollowerTrace where
  items : List String
  requests : Nat
  updates : Nat
  outcome : RunOutcome
deriving DecidableEq, Repr

/-- The while-True loop shared (line for line, up to URL and model class)
by get_followers_by_id (follower.py lines 97-157) and get_following_by_id
(lines 206-266). Branches in source order: status in [400, 401, 402, 403,
404] raises BEFORE rate_limiter.update_limits is reached; otherwise
update_limits runs; then 429 waits for the limit reset and retries; then
a not-ok status (status >= 400) raises if it is 503 and
raise_exception_on_http_503 is set, else decrements the positive retry
counter i and retries while i < 0 or i > 0, breaking out of the loop
(normal generator end) when i reaches 0; on an ok response, an empty or
absent users.data raises, else the users are yielded and the loop
continues with pagination_token from the metadata, or breaks when the
metadata has no next_token. Model validation is modelled as succeeding:
every synthetic ok response decodes, which every claim here assumes. -/
def followerLoop (raise503 : Bool) (tok : Option String) (i : Int) :
    List PageResponse → FollowerTrace
  | [] => ⟨[], 0, 0, .exhausted⟩
  | r :: rest =>
    if r.status = 400 ∨ r.status = 401 ∨ r.status = 402 ∨ r.status = 403 ∨ r.status = 404 then
      ⟨[], 1, 0, .raisedError⟩
    else if r.status = 429 then
      let t := followerLoop raise503 tok i rest
      ⟨t.items, t.requests + 1, t.updates + 1, t.outcome⟩
    else if 400 ≤ r.status then
      if r.status = 503 ∧ raise503 then ⟨[], 1, 1, .raisedError⟩
      else
        let i2 := if 0 < i then i - 1 else i
        if i2 < 0 ∨ 0 < i2 then
          let t := followerLoop raise503 tok i2 rest
          ⟨t.items, t.requests + 1, t.updates + 1, t.outcome⟩
        else ⟨[], 1, 1, .completed⟩
    else
      if r.data = [] then ⟨[], 1, 1, .raisedError⟩
      else
        match r.next_token with
        | some nt =>
          let t := followerLoop raise503 (some nt) i rest
          ⟨r.data ++ t.items, t.requests + 1, t.updates + 1, t.outcome⟩
        | none => ⟨r.data, 1, 1, .completed⟩

/-- A get_followers_by_id run with retry budget num_tries_on_not_ok = n:
the loop counter starts at n + 1 and the first request carries no
pagination_token. -/
def followerRun (raise503 : Bool) (numTries : Int) (resps : List PageResponse) : FollowerTrace :=
  followerLoop raise503 none (numTries + 1) resps

/-- The while-True loop of get_tweets_by_id (tweets.py lines 73-89):
update_limits runs first on every response, then 429 waits and retries,
then any other not-ok status raises, else the page data is yielded and
the loop breaks. The trace reuses FollowerTrace (items, request count,
update_limits count, outcome). -/
def tweetsLoop : List PageResponse → FollowerTrace
  | [] => ⟨[], 0, 0, .exhausted⟩
  | r :: rest =>
    if r.status = 429 then
      let t := tweetsLoop rest
      ⟨t.items, t.requests + 1, t.updates + 1, t.outcome⟩
    else if 400 ≤ r.status then
      ⟨[], 1, 1, .raisedError⟩
    else
      ⟨r.data, 1, 1, .completed⟩

/-! ### get_quote_tweets (quote_tweets.py lines 99-137) -/

/-- The response metadata object of a quote-tweets page; only the
next_token field matters to the loop. -/
structure QuoteMeta where
  next_token : Option String
deriving DecidableEq, Repr

/-- A value stored under the pagination_token key of the request params.
The source can store either a string or, as it does on line 131, the
whole metadata dict. -/
inductive TokenVal where
  | str (s : String)
  | metaObj (m : QuoteMeta)
deriving DecidableEq, Repr

/-- One synthetic HTTP response consumed by the quote-tweets loop. -/
structure QuoteResp where
  status : Nat
  data : List String
  meta : QuoteMeta
deriving DecidableEq, Repr

/-- Trace of a get_quote_tweets run: items yielded, the pagination_token
query parameter of each issued request in order, outcome. -/
structure QuoteTrace where
  items : List String
  requests : List (Option TokenVal)
  outcome : RunOutcome
deriving DecidableEq, Repr

/-- The while-True loop of get_quote_tweets, with tok the current
pagination_token entry of params. Branches in source order: status 400
raises; update_limits runs (not tracked here; no claim needs it for this
endpoint); 429 waits and retries; another not-ok status sleeps and
retries; else the page data is yielded and, when the metadata contains a
next_token, line 131 assigns the WHOLE metadata object
(response_json.get("meta")) to params["pagination_token"] - not the token
string - and loops, or breaks when the metadata has no next_token. -/
def quoteLoop (tok : Option TokenVal) : List QuoteResp → QuoteTrace
  | [] => ⟨[], [], .exhausted⟩
  | r :: rest =>
    if r.status = 400 then
      ⟨[], [tok], .raisedError⟩
    else if r.status = 429 then
      let t := quoteLoop tok rest
      ⟨t.items, tok :: t.requests, t.outcome⟩
    else if 400 ≤ r.status then
      let t := quoteLoop tok rest
      ⟨t.items, tok :: t.requests, t.outcome⟩
    else
      match r.meta.next_token with
      | some _ =>
        let t := quoteLoop (some (.metaObj r.meta)) rest
        ⟨r.data ++ t.items, tok :: t.requests, t.outcome⟩
      | none => ⟨r.data, [tok], .completed⟩

/-- A get_quote_tweets run: the first request carries no pagination_token. -/
def quoteRun (resps : List QuoteResp) : QuoteTrace :=
  quoteLoop none resps

/-! ### Stream readers

get_stream (filtered_stream.py lines 198-221) and the compliance streams
(compliance_stream.py lines 83-102 and 137-156) share the same reading
shape: an outer while-True reconnects forever; per connection, an inner
loop reads lines until readline returns the empty bytes (end of the
connection, a clean close), discards each bare CRLF keep-alive line, and
parses every other line as JSON, yielding the event on success and
logging and skipping the line when the parse raises. A connection is
modelled as the list of lines it delivers before the clean close. -/

/-- One line read from an open streaming connection. -/
inductive StreamLine where
  /-- a bare CRLF keep-alive line -/
  | keepAlive
  /-- a line that parses as JSON; the payload is the event yielded -/
  | event (payload : String)
  /-- a non-empty line on which the JSON parse raises -/
  | malformed (raw : String)
deriving DecidableEq, Repr

/-- Events yielded to the consumer while reading one connection. -/
def connEvents : List StreamLine → List String
  | [] => []
  | .keepAlive :: rest => connEvents rest
  | .malformed _ :: rest => connEvents rest
  | .event p :: rest => p :: connEvents rest

/-- Events yielded across a sequence of connections: after a clean close
the outer loop reconnects and reading continues with the next connection. -/
def streamEvents : List (List StreamLine) → List String
  | [] => []
  | c :: cs => connEvents c ++ streamEvents cs

/-- The backfill_minutes query parameter of every connection request of
get_stream: params is built once before the loop and always contains
str(backfill_minutes) (default 5), the caller value sent verbatim,
unclamped. -/
def getStreamBackfillParam (backfill : Int) : Option String :=
  some (toString backfill)

/-- The backfill_minutes query parameter of every connection request of
get_tweet_compliance_stream / get_user_compliance_stream: params is built
once before the loop and contains backfill_minutes only when the caller
passed a truthy value (absent by default, and 0 is falsy in Python). -/
def complianceBackfillParam : Option Int → Option String
  | none => none
  | some b => if b = 0 then none else some (toString b)

/-- The backfill_minutes parameter of each connection request issued over
a get_stream run: one identical request per connection. -/
def getStreamRequests (backfill : Int) (conns : List (List StreamLine)) : List (Option String) :=
  conns.map fun _ => getStreamBackfillParam backfill

/-- The backfill_minutes parameter of each connection request issued over
a compliance-stream run: one identical request per connection. -/
def complianceRequests (backfill : Option Int) (conns : List (List StreamLine)) :
    List (Option String) :=
  conns.map fun _ => complianceBackfillParam backfill

/-- Claim C3: on a synthetic 3-page sequence whose pages chain by tokens
until the metadata of the last one carries none, get_full_search yields
exactly the concatenation of the pages in order and issues exactly 3
requests (the request list has the 3 pagination states); moreover, in
general, a successful response without next_token ends the run exactly
there, and one with a next_token continues it. -/
theorem claim_C3 :
    (∀ (d1 d2 d3 : List String) (t1 t2 : String),
      fullSearchRun [⟨200, d1, some t1⟩, ⟨200, d2, some t2⟩, ⟨200, d3, none⟩] =
        ⟨d1 ++ d2 ++ d3, [none, some t1, some t2], .completed⟩)
    ∧ (∀ (tok : Option String) (r : PageResponse) (rest : List PageResponse),
        200 ≤ r.status → r.status < 300 → r.next_token = none →
        fullSearchLoop tok (r :: rest) = ⟨r.data, [tok], .completed⟩)
    ∧ (∀ (tok : Option String) (r : PageResponse) (rest : List PageResponse) (t : String),
        200 ≤ r.status → r.status < 300 → r.next_token = some t →
        fullSearchLoop tok (r :: rest) =
          ⟨r.data ++ (fullSearchLoop (some t) rest).items,
            tok :: (fullSearchLoop (some t) rest).requests,
            (fullSearchLoop (some t) rest).outcome⟩) := by
  refine ⟨fun d1 d2 d3 t1 t2 => ?_, fun tok r rest h1 h2 h3 => ?_, fun tok r rest t h1 h2 h3 => ?_⟩
  · simp [fullSearchRun, fullSearchLoop]
  · simp only [fullSearchLoop]
    rw [if_neg (by omega), if_neg (by omega), if_neg (by omega), h3]
  · simp only [fullSearchLoop]
    rw [if_neg (by omega), if_neg (by omega), if_neg (by omega), h3]

/-- Witness for claim C3 at concrete pages. -/
theorem claim_C3_witness :
    fullSearchRun [⟨200, ["a"], some "T1"⟩, ⟨200, ["b"], some "T2"⟩, ⟨200, ["c"], none⟩] =
      ⟨["a"] ++ ["b"] ++ ["c"], [none, some "T1", some "T2"], .completed⟩
    ∧ fullSearchLoop none [⟨200, ["a"], none⟩] = ⟨["a"], [none], .completed⟩
    ∧ fullSearchLoop none [⟨200, ["a"], some "T1"⟩] =
        ⟨["a"] ++ (fullSearchLoop (some "T1") []).items,
          none :: (fullSearchLoop (some "T1") []).requests,
          (fullSearchLoop (some "T1") []).outcome⟩ :=
  ⟨claim_C3.1 ["a"] ["b"] ["c"] "T1" "T2",
    claim_C3.2.1 none ⟨200, ["a"], none⟩ [] (by decide) (by decide) rfl,
    claim_C3.2.2 none ⟨200, ["a"], some "T1"⟩ [] "T1" (by decide) (by decide) rfl⟩

/-- Claim C4, evaluated at the failing input: after a successful
quote-tweets page whose metadata carries next_token B, the next request
does not carry the token string B as pagination_token; line 131 of
quote_tweets.py stores the whole metadata object instead. -/
theorem claim_C4_code_bug :
    quoteRun [⟨200, ["q1"], ⟨some "B"⟩⟩, ⟨200, ["q2"], ⟨none⟩⟩] =
      ⟨["q1", "q2"], [none, some (.metaObj ⟨some "B"⟩)], .completed⟩
    ∧ some (TokenVal.metaObj ⟨some "B"⟩) ≠ some (TokenVal.str "B") := by
  constructor <;> decide

/-- Claim C5: HTTP outcome classification of the pagination loops. For
get_full_search: 400 raises immediately with that single request and the
request is never re-issued; 429 re-issues the same request (rate-limit
retry); every 5xx re-issues the same request (transient retry); every
2xx is handled as success, its page yielded. For the follower lookups:
each of 400, 401, 402, 403, 404 raises immediately with that single
request; 429 is retried under rate-limit control; a 5xx with retries
remaining under the default policy is retried as transient. -/
theorem claim_C5 :
    (∀ (tok : Option String) (r : PageResponse) (rest : List PageResponse), r.status = 400 →
      fullSearchLoop tok (r :: rest) = ⟨[], [tok], .raisedError⟩)
    ∧ (∀ (tok : Option String) (r : PageResponse) (rest : List PageResponse), r.status = 429 →
        fullSearchLoop tok (r :: rest) =
          ⟨(fullSearchLoop tok rest).items, tok :: (fullSearchLoop tok rest).requests,
            (fullSearchLoop tok rest).outcome⟩)
    ∧ (∀ (tok : Option String) (r : PageResponse) (rest : List PageResponse),
        500 ≤ r.status → r.status < 600 →
        fullSearchLoop tok (r :: rest) =
          ⟨(fullSearchLoop tok rest).items, tok :: (fullSearchLoop tok rest).requests,
            (fullSearchLoop tok rest).outcome⟩)
    ∧ (∀ (tok : Option String) (r : PageResponse) (rest : List PageResponse),
        200 ≤ r.status → r.status < 300 →
        (fullSearchLoop tok (r :: rest)).items =
          r.data ++ (match r.next_token with
                     | some nt => (fullSearchLoop (some nt) rest).items
                     | none => []))
    ∧ (∀ (raise503 : Bool) (tok : Option String) (i : Int) (r : PageResponse)
          (rest : List PageResponse),
        r.status = 400 ∨ r.status = 401 ∨ r.status = 402 ∨ r.status = 403 ∨ r.status = 404 →
        followerLoop raise503 tok i (r :: rest) = ⟨[], 1, 0, .raisedError⟩)
    ∧ (∀ (raise503 : Bool) (tok : Option String) (i : Int) (r : PageResponse)
          (rest : List PageResponse), r.status = 429 →
        followerLoop raise503 tok i (r :: rest) =
          ⟨(followerLoop raise503 tok i rest).items,
            (followerLoop raise503 tok i rest).requests + 1,
            (followerLoop raise503 tok i rest).updates + 1,
            (followerLoop raise503 tok i rest).outcome⟩)
    ∧ (∀ (tok : Option String) (i : Int) (r : PageResponse) (rest : List PageResponse),
        500 ≤ r.status → r.status < 600 → 1 < i →
        followerLoop false tok i (r :: rest) =
          ⟨(followerLoop false tok (i - 1) rest).items,
            (followerLoop false tok (i - 1) rest).requests + 1,
            (followerLoop false tok (i - 1) rest).updates + 1,
            (followerLoop false tok (i - 1) rest).outcome⟩) := by
  refine ⟨fun tok r rest h => ?_, fun tok r rest h => ?_, fun tok r rest h1 h2 => ?_,
    fun tok r rest h1 h2 => ?_, fun raise503 tok i r rest h => ?_,
    fun raise503 tok i r rest h => ?_, fun tok i r rest h1 h2 h3 => ?_⟩
  · simp only [fullSearchLoop]
    rw [if_pos h]
  · simp only [fullSearchLoop]
    rw [if_neg (by omega), if_pos h]
  · simp only [fullSearchLoop]
    rw [if_neg (by omega), if_neg (by omega), if_pos (by omega)]
  · simp only [fullSearchLoop]
    rw [if_neg (by omega), if_neg (by omega), if_neg (by omega)]
    cases r.next_token <;> simp
  · simp only [followerLoop]
    rw [if_pos h]
  · simp only [followerLoop]
    rw [if_neg (by omega), if_pos h]
  · simp only [followerLoop]
    rw [if_neg (by omega), if_neg (by omega), if_pos (by omega),
      if_neg (by simp), if_pos (by omega)]
    rw [if_pos (by omega)]

/-- Witness for claim C5 at concrete statuses 400, 429, 503, 200 for the
full search loop and 404, 429, 503 for the follower loop. -/
theorem claim_C5_witness :
    fullSearchLoop none [⟨400, [], none⟩] = ⟨[], [none], .raisedError⟩
    ∧ fullSearchLoop none [⟨429, [], none⟩] =
        ⟨(fullSearchLoop none []).items, none :: (fullSearchLoop none []).requests,
          (fullSearchLoop none []).outcome⟩
    ∧ fullSearchLoop none [⟨503, [], none⟩] =
        ⟨(fullSearchLoop none []).items, none :: (fullSearchLoop none []).requests,
          (fullSearchLoop none []).outcome⟩
    ∧ (fullSearchLoop none [⟨200, ["a"], none⟩]).items = ["a"] ++ []
    ∧ followerLoop false none 2 [⟨404, [], none⟩] = ⟨[], 1, 0, .raisedError⟩
    ∧ followerLoop false none 2 [⟨429, [], none⟩] =
        ⟨(followerLoop false none 2 []).items, (followerLoop false none 2 []).requests + 1,
          (followerLoop false none 2 []).updates + 1, (followerLoop false none 2 []).outcome⟩
    ∧ followerLoop false none 2 [⟨503, [], none⟩] =
        ⟨(followerLoop false none (2 - 1) []).items,
          (followerLoop false none (2 - 1) []).requests + 1,
          (followerLoop false none (2 - 1) []).updates + 1,
          (followerLoop false none (2 - 1) []).outcome⟩ :=
  ⟨claim_C5.1 none ⟨400, [], none⟩ [] rfl,
    claim_C5.2.1 none ⟨429, [], none⟩ [] rfl,
    claim_C5.2.2.1 none ⟨503, [], none⟩ [] (by decide) (by decide),
    claim_C5.2.2.2.1 none ⟨200, ["a"], none⟩ [] (by decide) (by decide),
    claim_C5.2.2.2.2.1 false none 2 ⟨404, [], none⟩ [] (by decide),
    claim_C5.2.2.2.2.2.1 false none 2 ⟨429, [], none⟩ [] rfl,
    claim_C5.2.2.2.2.2.2 none 2 ⟨503, [], none⟩ [] (by decide) (by decide) (by decide)⟩

/-- Helper: get_tweets_by_id feeds every response into update_limits: its
update count always equals its request count. -/
theorem tweetsLoop_updates_requests (resps : List PageResponse) :
    (tweetsLoop resps).updates = (tweetsLoop resps).requests := by
  induction resps with
  | nil => rfl
  | cons r rest ih =>
    simp only [tweetsLoop]
    split_ifs <;> simp [ih]

/-- Helper: over responses none of which has a fatal lookup status, the
follower loop feeds every response into update_limits. -/
theorem followerLoop_updates_requests (raise503 : Bool) (resps : List PageResponse)
    (h : ∀ r ∈ resps,
      ¬(r.status = 400 ∨ r.status = 401 ∨ r.status = 402 ∨ r.status = 403 ∨ r.status = 404)) :
    ∀ (tok : Option String) (i : Int),
      (followerLoop raise503 tok i resps).updates =
        (followerLoop raise503 tok i resps).requests := by
  induction resps with
  | nil => intro tok i; rfl
  | cons r rest ih =>
    intro tok i
    have hr := h r (List.mem_cons_self r rest)
    have hrest : ∀ x ∈ rest,
        ¬(x.status = 400 ∨ x.status = 401 ∨ x.status = 402 ∨ x.status = 403 ∨ x.status = 404) :=
      fun x hx => h x (List.mem_cons_of_mem r hx)
    simp only [followerLoop]
    rw [if_neg hr]
    by_cases h429 : r.status = 429
    · rw [if_pos h429]
      simp [ih hrest]
    · rw [if_neg h429]
      by_cases hok : 400 ≤ r.status
      · rw [if_pos hok]
        by_cases h503 : r.status = 503 ∧ raise503
        · rw [if_pos h503]
        · rw [if_neg h503]
          by_cases hretry :
              (if 0 < i then i - 1 else i) < 0 ∨ 0 < (if 0 < i then i - 1 else i)
          · rw [if_pos hretry]
            simp [ih hrest]
          · rw [if_neg hretry]
      · rw [if_neg hok]
        by_cases hdata : r.data = []
        · rw [if_pos hdata]
        · rw [if_neg hdata]
          cases r.next_token with
          | some nt => simp [ih hrest]
          | none => rfl

/-- Counterexample to claim C6 as stated: a follower lookup answered with
HTTP 400 raises before reaching rate_limiter.update_limits, so one request
was issued but the headers of its response were never fed to the tracker. -/
theorem claim_C6_counterexample :
    (followerLoop false none 0 [⟨400, [], none⟩]).requests = 1 ∧
    (followerLoop false none 0 [⟨400, [], none⟩]).updates = 0 := by
  constructor <;> decide

/-- Claim C6 (amended): get_tweets_by_id feeds the headers of every
response into update_limits on every outcome path; the follower lookups
do so on every path except the fatal 4xx path (statuses 400-404), where
the exception is raised before update_limits runs. -/
theorem claim_C6_amended :
    (∀ resps : List PageResponse, (tweetsLoop resps).updates = (tweetsLoop resps).requests)
    ∧ (∀ (raise503 : Bool) (tok : Option String) (i : Int) (resps : List PageResponse),
        (∀ r ∈ resps,
          ¬(r.status = 400 ∨ r.status = 401 ∨ r.status = 402 ∨ r.status = 403 ∨
            r.status = 404)) →
        (followerLoop raise503 tok i resps).updates =
          (followerLoop raise503 tok i resps).requests) :=
  ⟨tweetsLoop_updates_requests,
    fun raise503 tok i resps h => followerLoop_updates_requests raise503 resps h tok i⟩

/-- Witness for claim C6 (amended) on a run mixing a 429, a 503 and a
successful page. -/
theorem claim_C6_amended_witness :
    (followerLoop false none 3 [⟨429, [], none⟩, ⟨503, [], none⟩, ⟨200, ["u"], none⟩]).updates =
      (followerLoop false none 3 [⟨429, [], none⟩, ⟨503, [], none⟩, ⟨200, ["u"], none⟩]).requests :=
  claim_C6_amended.2 false none 3 [⟨429, [], none⟩, ⟨503, [], none⟩, ⟨200, ["u"], none⟩]
    (by decide)

/-- Helper: a 503 response with more than one retry left re-issues the
request with the counter decremented. -/
theorem followerLoop_503_retry (tok : Option String) (i : Int) (rest : List PageResponse)
    (h : 1 < i) :
    followerLoop false tok i (⟨503, [], none⟩ :: rest) =
      ⟨(followerLoop false tok (i - 1) rest).items,
        (followerLoop false tok (i - 1) rest).requests + 1,
        (followerLoop false tok (i - 1) rest).updates + 1,
        (followerLoop false tok (i - 1) rest).outcome⟩ := by
  simp only [followerLoop]
  rw [if_neg (by omega), if_neg (by omega), if_pos (by omega), if_neg (by simp),
    if_pos (by omega)]
  rw [if_pos (by omega)]

/-- Helper: with raise_exception_on_http_503 unset and retry counter
n + 1, a run of n + 1 consecutive 503 responses ends the follower loop by
breaking out normally: no exception reaches the consumer and no user is
yielded. -/
theorem followerLoop_exhausts_silently (n : Nat) :
    followerLoop false none ((n : Int) + 1) (List.replicate (n + 1) ⟨503, [], none⟩) =
      ⟨[], n + 1, n + 1, .completed⟩ := by
  induction n with
  | zero =>
    simp only [List.replicate, followerLoop]
    rw [if_neg (by decide), if_neg (by decide), if_pos (by decide), if_neg (by simp),
      if_neg (by norm_num)]
  | succ m ih =>
    have hrep : List.replicate (m + 1 + 1) (⟨503, [], none⟩ : PageResponse) =
        ⟨503, [], none⟩ :: List.replicate (m + 1) ⟨503, [], none⟩ := rfl
    rw [hrep, followerLoop_503_retry none _ _ (by omega)]
    have hcast : ((m + 1 : Nat) : Int) + 1 - 1 = (m : Int) + 1 := by push_cast; ring
    rw [hcast, ih]

/-- Counterexample to claim C7 as stated: with the retry bound
num_tries_on_not_ok = 0 exhausted by one 503 response, the follower run
ends with a normal completion and an empty yield, not a terminal error. -/
theorem claim_C7_counterexample :
    followerRun false 0 [⟨503, [], none⟩] = ⟨[], 1, 1, .completed⟩ ∧
    RunOutcome.completed ≠ RunOutcome.raisedError := by
  constructor <;> decide

/-- Claim C7 (amended): for every retry bound num_tries_on_not_ok = n >= 0
exhausted by n + 1 consecutive 503 responses, the follower run silently
ends the sequence (the loop breaks and the generator completes normally,
yielding nothing) instead of surfacing a terminal error. -/
theorem claim_C7_amended (n : Nat) :
    followerRun false (n : Int) (List.replicate (n + 1) ⟨503, [], none⟩) =
      ⟨[], n + 1, n + 1, .completed⟩ :=
  followerLoop_exhausts_silently n

/-- Counterexample to claim C8 as stated: for the compliance stream reader
with the default backfill_minutes = None, a connection that closes cleanly
after 2 events followed by a connection with 1 more event does deliver 3
events, but the second connection request carries NO backfill parameter
(params is built once, and a falsy backfill_minutes is never added); and
get_stream sends the caller value verbatim, so a caller value of 10 is
not bounded to the 5-minute maximum either. -/
theorem claim_C8_counterexample :
    streamEvents [[.event "e1", .event "e2"], [.event "e3"]] = ["e1", "e2", "e3"]
    ∧ complianceRequests none [[.event "e1", .event "e2"], [.event "e3"]] = [none, none]
    ∧ getStreamRequests 10 [[.event "e1", .event "e2"], [.event "e3"]] =
        [some "10", some "10"] := by
  refine ⟨by decide, rfl, rfl⟩

/-- Claim C8 (amended): after a clean close the reader reconnects and the
consumer observes all events across the boundary, so 2 events then a
reconnect then 1 event yield exactly 3 events; every connection request,
the reconnect included, repeats the same backfill_minutes parameter built
once from the caller argument: get_stream always sends str(backfill)
verbatim (default 5, no clamping to the 5-minute maximum), and the
compliance streams send it only when the caller passed a non-zero value,
omitting it by default. -/
theorem claim_C8_amended :
    (∀ e1 e2 e3 : String,
      streamEvents [[.event e1, .event e2], [.event e3]] = [e1, e2, e3])
    ∧ (∀ (b : Int) (conns : List (List StreamLine)),
        getStreamRequests b conns = conns.map fun _ => some (toString b))
    ∧ (∀ (ob : Option Int) (conns : List (List StreamLine)),
        complianceRequests ob conns = conns.map fun _ => complianceBackfillParam ob)
    ∧ complianceBackfillParam none = none
    ∧ (∀ b : Int, b ≠ 0 → complianceBackfillParam (some b) = some (toString b)) := by
  refine ⟨fun e1 e2 e3 => rfl, fun b conns => rfl, fun ob conns => rfl, rfl, fun b hb => ?_⟩
  rw [complianceBackfillParam, if_neg hb]

/-- Witness for claim C8 (amended) at backfill value 5. -/
theorem claim_C8_amended_witness :
    complianceBackfillParam (some 5) = some (toString (5 : Int)) :=
  claim_C8_amended.2.2.2.2 5 (by decide)

/-- Claim C9: while reading one open connection, a bare CRLF keep-alive
line anywhere in the stream is discarded without emitting anything, and a
non-empty line whose JSON parse fails is skipped without terminating the
reading session or the yielded sequence: the events delivered are exactly
those of the surrounding lines. -/
theorem claim_C9 (pre post : List StreamLine) (raw : String) :
    connEvents (pre ++ StreamLine.keepAlive :: post) = connEvents (pre ++ post)
    ∧ connEvents (pre ++ StreamLine.malformed raw :: post) = connEvents (pre ++ post) := by
  induction pre with
  | nil => exact ⟨rfl, rfl⟩
  | cons l ls ih =>
    cases l <;> simp [connEvents, List.cons_append, ih.1, ih.2]

/-- Claim C10: a successful follower or following page whose decoded body
contains no user data (users.data empty or absent) makes the lookup raise
instead of yielding an empty page or ending the sequence normally. -/
theorem claim_C10 (raise503 : Bool) (tok : Option String) (i : Int)
    (r : PageResponse) (rest : List PageResponse)
    (h1 : 200 ≤ r.status) (h2 : r.status < 300) (hd : r.data = []) :
    followerLoop raise503 tok i (r :: rest) = ⟨[], 1, 1, .raisedError⟩ := by
  simp only [followerLoop]
  rw [if_neg (by omega), if_neg (by omega), if_neg (by omega), if_pos hd]

/-- Witness for claim C10: a 200 response with empty data raises. -/
theorem claim_C10_witness :
    followerLoop false none 0 [⟨200, [], none⟩] = ⟨[], 1, 1, .raisedError⟩ :=
  claim_C10 false none 0 ⟨200, [], none⟩ [] (by decide) (by decide) rfl
